import Mathlib

/-!
Shallow embedding of the pomodoro_vpet repository core:
`src/backend/time_logger.py`, `src/backend/pomodoro_engine.py`,
`src/backend/pet_events.py`, `src/backend/vpet_engine.py` and
`src/backend/digimon_importer.py`.

Python integers are modelled as `ℤ` (or `ℕ` for loop counters that stay
non-negative), wall-clock instants (`datetime.now()`) are passed explicitly
as rationals counting seconds, and `random.*` draws are passed explicitly
as inputs.  Callback invocations are returned as explicit event lists so
that their relative order is observable.
-/

namespace PomodoroVPet

/-! ### TimeLogger (src/backend/time_logger.py)

A work-session record mirrors the dict built in
`TimeLogger.start_work_session` / `stop_work_session`.  Timestamps are
rationals (seconds); `duration_minutes` is computed by Python's
`round(x, 2)`, modelled here by round-half-to-even on rationals. -/

structure SessionRec where
  startTime : ℚ
  endTime : Option ℚ
  durationMinutes : Option ℚ
  sessionType : String
  completed : Bool
  vpetName : String
deriving DecidableEq

structure TimeLogger where
  currentSession : Option SessionRec
  sessions : List SessionRec
deriving DecidableEq

/-- Round-half-to-even on rationals, mirroring Python's `round` builtin
(the code applies it to a float; the rational model keeps the exact value). -/
def roundHalfEven (q : ℚ) : ℤ :=
  if q - ⌊q⌋ < 1/2 then ⌊q⌋
  else if q - ⌊q⌋ > 1/2 then ⌊q⌋ + 1
  else if ⌊q⌋ % 2 = 0 then ⌊q⌋ else ⌊q⌋ + 1

/-- Python's `round(q, 2)`. -/
def pyRound2 (q : ℚ) : ℚ := (roundHalfEven (q * 100) : ℚ) / 100

/-- The record written by `TimeLogger.stop_work_session` for the active
session `cs` when it is closed at instant `now`:
`end_time`, `completed` and `duration_minutes = round(secs/60, 2)` are
filled in. -/
def closeRec (cs : SessionRec) (now : ℚ) (completed : Bool) : SessionRec :=
  { cs with
    endTime := some now
    completed := completed
    durationMinutes := some (pyRound2 ((now - cs.startTime) / 60)) }

/-- Mirrors `TimeLogger.start_work_session`: refuses if a session is active,
otherwise opens a fresh record. -/
def TimeLogger.startWorkSession (tl : TimeLogger) (now : ℚ) (vpetName : String) :
    TimeLogger × Bool :=
  match tl.currentSession with
  | some _ => (tl, false)
  | none =>
    let fresh : SessionRec :=
      { startTime := now
        endTime := none
        durationMinutes := none
        sessionType := "work"
        completed := false
        vpetName := vpetName }
    ({ tl with currentSession := some fresh }, true)

/-- Mirrors `TimeLogger.stop_work_session`: closes the active session (if any),
appends the closed record to the session list and returns it. -/
def TimeLogger.stopWorkSession (tl : TimeLogger) (now : ℚ) (completed : Bool) :
    TimeLogger × Option SessionRec :=
  match tl.currentSession with
  | none => (tl, none)
  | some cs =>
    let r := closeRec cs now completed
    ({ currentSession := none, sessions := tl.sessions ++ [r] }, some r)

/-- Mirrors `TimeLogger.is_session_active`. -/
def TimeLogger.isSessionActive (tl : TimeLogger) : Bool :=
  tl.currentSession.isSome

/-- Mirrors `TimeLogger.cleanup_on_exit`: closes any active session as interrupted
(`completed=False`). -/
def TimeLogger.cleanupOnExit (tl : TimeLogger) (now : ℚ) : TimeLogger :=
  if tl.currentSession.isSome then (tl.stopWorkSession now false).1 else tl

/-! ### PomodoroEngine (src/backend/pomodoro_engine.py)

The engine state holds the fields set in `PomodoroEngine.__init__`.
Callback invocations (`on_tick`, `on_session_complete`, `on_mode_change`)
are modelled as the list of events the engine would deliver, in order. -/

structure PomodoroEngine where
  workDuration : ℤ
  breakDuration : ℤ
  vpetName : String
  isRunning : Bool
  isPaused : Bool
  currentMode : String
  timeRemaining : ℤ
  sessionsCompleted : ℤ
  currentSessionStart : Option ℚ
  timeLogger : TimeLogger
deriving DecidableEq

inductive EngineEvent where
  | tick (remaining : ℤ)
  | sessionComplete (mode : String)
  | modeChange (oldMode newMode : String)
deriving DecidableEq

/-- Mirrors `PomodoroEngine.start`: returns `False` if already running, otherwise
raises the running flag, stamps the session start and (in work mode)
starts work-session logging. -/
def PomodoroEngine.start (e : PomodoroEngine) (now : ℚ) : PomodoroEngine × Bool :=
  if e.isRunning then (e, false)
  else
    let e1 := { e with isRunning := true, isPaused := false,
                       currentSessionStart := some now }
    let e2 :=
      if e1.currentMode = "work" then
        { e1 with timeLogger := (e1.timeLogger.startWorkSession now e1.vpetName).1 }
      else e1
    (e2, true)

/-- Mirrors `PomodoroEngine._switch_mode`: toggles work/break and restores the new
mode's full duration. -/
def PomodoroEngine.switchMode (e : PomodoroEngine) : PomodoroEngine :=
  if e.currentMode = "work" then
    { e with currentMode := "break", timeRemaining := e.breakDuration }
  else
    { e with currentMode := "work", timeRemaining := e.workDuration }

/-- Mirrors `PomodoroEngine.reset`: force-closes any active log session as
interrupted, restores the idle work-mode state and fires a tick. -/
def PomodoroEngine.reset (e : PomodoroEngine) (now : ℚ) :
    PomodoroEngine × List EngineEvent :=
  let e1 :=
    if e.timeLogger.isSessionActive then
      { e with timeLogger := (e.timeLogger.stopWorkSession now false).1 }
    else e
  let e2 := { e1 with isRunning := false, isPaused := false,
                      currentMode := "work", timeRemaining := e1.workDuration,
                      currentSessionStart := none }
  (e2, [EngineEvent.tick e2.timeRemaining])

/-- Mirrors `PomodoroEngine.skip_session`: switches mode immediately; the method
only logs, it invokes no callback. -/
def PomodoroEngine.skipSession (e : PomodoroEngine) :
    PomodoroEngine × List EngineEvent :=
  (e.switchMode, [])

/-- Mirrors `PomodoroEngine._handle_session_complete`, reached by `_run_timer` when
the countdown hits zero while running: close the work log entry (work mode
with an active session only), bump the session count (work mode only),
fire the session-complete callback, switch modes, drop the running flag,
fire the mode-change callback. -/
def PomodoroEngine.handleSessionComplete (e : PomodoroEngine) (now : ℚ) :
    PomodoroEngine × List EngineEvent :=
  let completedMode := e.currentMode
  let e1 :=
    if completedMode = "work" ∧ e.timeLogger.isSessionActive then
      { e with timeLogger := (e.timeLogger.stopWorkSession now true).1 }
    else e
  let e2 :=
    if completedMode = "work" then
      { e1 with sessionsCompleted := e1.sessionsCompleted + 1 }
    else e1
  let oldMode := e2.currentMode
  let e3 := e2.switchMode
  let e4 := { e3 with isRunning := false, isPaused := false }
  (e4, [EngineEvent.sessionComplete completedMode,
        EngineEvent.modeChange oldMode e4.currentMode])

/-! ### PetEvent (src/backend/pet_events.py)

The dataclass splits into an immutable configuration and the mutable
per-activation counters (`active`, `_current_frame_index`,
`_frame_delay_counter`, `_cycles_remaining`).  The optional `on_complete`
callback returns an optional chained event name; it is modelled by its
result (`none` = no callback installed, `some r` = callback returning `r`). -/

structure PetEventCfg where
  name : String
  frames : List ℤ
  modes : List String
  frameDelay : ℕ
  cycles : ℕ
  onComplete : Option (Option String)
deriving DecidableEq

structure PetEventState where
  active : Bool
  currentFrameIndex : ℕ
  frameDelayCounter : ℕ
  cyclesRemaining : ℤ
deriving DecidableEq

/-- Mirrors `PetEvent.start`: activate and reset all counters. -/
def PetEventCfg.startState (cfg : PetEventCfg) : PetEventState :=
  { active := true
    currentFrameIndex := 0
    frameDelayCounter := 0
    cyclesRemaining := (cfg.cycles : ℤ) }

/-- Mirrors `PetEvent.update`: advance the event by one animation tick, returning
the new counters together with `(frame, finished)`. -/
def PetEventCfg.update (cfg : PetEventCfg) (st : PetEventState) :
    PetEventState × ℤ × Bool :=
  let frame := cfg.frames.getD st.currentFrameIndex 0
  let ctr := st.frameDelayCounter + 1
  if ctr ≥ cfg.frameDelay then
    let idx := st.currentFrameIndex + 1
    if idx ≥ cfg.frames.length then
      let rem := st.cyclesRemaining - 1
      if rem ≤ 0 then
        ({ active := false, currentFrameIndex := 0, frameDelayCounter := 0,
           cyclesRemaining := rem }, frame, true)
      else
        ({ st with frameDelayCounter := 0, currentFrameIndex := 0,
                   cyclesRemaining := rem }, frame, false)
    else
      ({ st with frameDelayCounter := 0, currentFrameIndex := idx }, frame, false)
  else
    ({ st with frameDelayCounter := ctr }, frame, false)

/-- Mirrors `PetEvent.complete`: run the `on_complete` hook, returning the chained
event name it yields (or `none` when no hook is installed). -/
def PetEventCfg.completionResult (cfg : PetEventCfg) : Option String :=
  match cfg.onComplete with
  | some hookResult => hookResult
  | none => none

/-- One `update` call, keeping only the state (the Python method mutates
`self` and returns `(frame, finished)`). -/
def PetEventCfg.updSt (cfg : PetEventCfg) (st : PetEventState) : PetEventState :=
  (cfg.update st).1

/-! ### Event queue dispatch

Modelled from the spec: `MainWindow._queue_event` calls
`self.vpet_engine.queue_event(name)` and reads `self.vpet_engine.events`,
but `src/backend/vpet_engine.py` defines neither a `queue_event` method
nor an `events` registry — the event-framework engine variant is missing
from the sources.  Following the spec ("Queuing an event while one is
active defers it; it activates only after the current event's completion
hook returns no chained event", "at most one event active at a time",
"on completion, run its completion hook (may chain into another named
event)"), the dispatcher keeps one active event, one deferred queued
name, and a name-indexed registry; per-event dynamics reuse the real
`PetEvent.update` / `PetEvent.complete` above. -/

structure EventEngine where
  registry : List (String × PetEventCfg)
  activeName : Option String
  activeState : PetEventState
  queuedName : Option String
deriving DecidableEq

def lookupEvent (reg : List (String × PetEventCfg)) (n : String) : Option PetEventCfg :=
  (reg.find? (fun p => p.1 = n)).map Prod.snd

/-- Modelled from the spec: activating a registered event starts it with
fresh counters; an unknown name leaves no event active. -/
def EventEngine.activate (e : EventEngine) (n : String) : EventEngine :=
  match lookupEvent e.registry n with
  | some cfg => { e with activeName := some n, activeState := cfg.startState }
  | none => { e with activeName := none }

/-- Modelled from the spec: `queue_event` defers the name while another
event is active, otherwise starts it immediately. -/
def EventEngine.queueEvent (e : EventEngine) (n : String) : EventEngine :=
  if e.activeName.isSome then { e with queuedName := some n }
  else e.activate n

/-- Modelled from the spec: one animation tick of the event dispatcher.
An active event is advanced; when it finishes, its completion hook's
chained event (if any) activates first, otherwise a queued event
activates, otherwise the engine falls back to baseline walking. -/
def EventEngine.tick (e : EventEngine) : EventEngine :=
  match e.activeName with
  | none => e
  | some n =>
    match lookupEvent e.registry n with
    | none => { e with activeName := none }
    | some cfg =>
      let st := (cfg.update e.activeState).1
      let fin := (cfg.update e.activeState).2.2
      if fin then
        match cfg.completionResult with
        | some chained => e.activate chained
        | none =>
          match e.queuedName with
          | some q => { e.activate q with queuedName := none }
          | none => { e with activeName := none, activeState := st }
      else { e with activeState := st }

/-! ### VPetEngine animation step (src/backend/vpet_engine.py)

State fields follow `VPetEngine.__init__`; one `animationStep` is one
iteration of the `_animation_loop` body.  The `random` draws consumed in
one iteration are passed explicitly: the boolean draws stand for the
`random.random() < p` comparisons and the numeric ones for `randint`. -/

structure VPetState where
  xPosition : ℤ
  direction : ℤ
  currentFrame : ℤ
  canvasWidth : ℤ
  canvasHeight : ℤ
  spriteWidth : ℤ
  margin : ℤ
  isInHappyEvent : Bool
  happyCyclesRemaining : ℚ
  happyFrameCounter : ℤ
  happyAnimationDelayCounter : ℤ
  happyAnimationDelayThreshold : ℤ
  isAttackTraining : Bool
  attackFramesRemaining : ℤ
  attackFrameCounter : ℤ
  attackAnimationDelayCounter : ℤ
  attackAnimationDelayThreshold : ℤ
  attackJustFinished : Bool
  distanceWalked : ℤ
  minimumWalkDistance : ℤ
  currentMode : String
  animationRunning : Bool
  isTimerRunning : Bool
deriving DecidableEq

structure RandomDraws where
  attackTrigger : Bool
  attackLength : ℤ
  happyTrigger : Bool
  happyCycles : ℚ
  directionChange : Bool
deriving DecidableEq

/-- Mirrors `VPetEngine._get_animation_parameters`: `(move_speed, animation_delay)`. -/
def getAnimationParameters (s : VPetState) : ℤ × ℚ :=
  if s.currentMode = "work" then (3, 3/10) else (1, 7/10)

/-- Mirrors `VPetEngine._check_boundaries`: clamp to the walkable range and point
the direction away from a reached boundary; returns whether a boundary
was hit. -/
def checkBoundaries (s : VPetState) : VPetState × Bool :=
  let rightBoundary := s.canvasWidth - s.spriteWidth - s.margin
  let leftBoundary := s.margin
  if s.xPosition ≥ rightBoundary then
    ({ s with direction := -1, xPosition := rightBoundary }, true)
  else if s.xPosition ≤ leftBoundary then
    ({ s with direction := 1, xPosition := leftBoundary }, true)
  else (s, false)

/-- Mirrors `VPetEngine._should_change_direction`: the random draw counts only
once the minimum walk distance has been covered. -/
def shouldChangeDirection (s : VPetState) (draw : Bool) : Bool :=
  if s.distanceWalked ≥ s.minimumWalkDistance then draw else false

/-- Mirrors `VPetEngine._trigger_happy_event`. -/
def triggerHappyEvent (s : VPetState) (cycles : ℚ) : VPetState :=
  { s with happyCyclesRemaining := cycles, isInHappyEvent := true,
           happyFrameCounter := 0 }

/-- The normal-walking block of the `_animation_loop` body: move by
`direction * move_speed`, account the absolute distance moved, clamp at
boundaries (resetting the distance counter on a hit), otherwise consider
a random direction change, and finally alternate the walking frame. -/
def walkStep (s : VPetState) (dirDraw : Bool) : VPetState :=
  let moveSpeed := (getAnimationParameters s).1
  let sx := { s with xPosition := s.xPosition + s.direction * moveSpeed }
  let sd := { sx with distanceWalked := sx.distanceWalked + |sx.xPosition - s.xPosition| }
  let sb := (checkBoundaries sd).1
  let hit := (checkBoundaries sd).2
  let sc :=
    if hit then { sb with distanceWalked := 0 }
    else if shouldChangeDirection sb dirDraw then
      { sb with direction := -sb.direction, distanceWalked := 0 }
    else sb
  { sc with currentFrame := 1 - sc.currentFrame }

/-- The attack-training block of the `_animation_loop` body (guarded by
work mode, animation running, timer running and no happy event). -/
def attackPhase (s : VPetState) (o : RandomDraws) : VPetState :=
  if s.currentMode = "work" ∧ s.animationRunning = true ∧
      s.isTimerRunning = true ∧ s.isInHappyEvent = false then
    if s.isAttackTraining then
      let sA : VPetState :=
        if s.attackAnimationDelayCounter + 1 ≥ s.attackAnimationDelayThreshold then
          { s with attackFramesRemaining := s.attackFramesRemaining - 1,
                   attackAnimationDelayCounter := 0,
                   attackFrameCounter := (s.attackFrameCounter + 1) % 2 }
        else
          { s with attackAnimationDelayCounter := s.attackAnimationDelayCounter + 1 }
      if sA.attackFramesRemaining ≤ 0 then
        { sA with isAttackTraining := false, attackJustFinished := true,
                  attackFrameCounter := 0 }
      else sA
    else if o.attackTrigger = true ∧ s.attackJustFinished = false then
      { s with isAttackTraining := true, attackFramesRemaining := o.attackLength,
               attackAnimationDelayCounter := 0 }
    else s
  else s

/-- The `attack_just_finished` hand-off to a happy event. -/
def happyHandOff (s : VPetState) (o : RandomDraws) : VPetState :=
  if s.attackJustFinished then
    { triggerHappyEvent s o.happyCycles with attackJustFinished := false }
  else s

/-- The happy-event / attack-freeze / random-happy / walking branch of the
`_animation_loop` body. -/
def happyOrWalk (s : VPetState) (o : RandomDraws) : VPetState :=
  if s.isInHappyEvent then
    let sH : VPetState :=
      if s.happyAnimationDelayCounter + 1 ≥ s.happyAnimationDelayThreshold then
        { s with happyFrameCounter := 1 - s.happyFrameCounter,
                 happyCyclesRemaining := s.happyCyclesRemaining - 1/2,
                 happyAnimationDelayCounter := 0 }
      else
        { s with happyAnimationDelayCounter := s.happyAnimationDelayCounter + 1 }
    if sH.happyCyclesRemaining ≤ 0 then
      { sH with isInHappyEvent := false, happyFrameCounter := 0,
                happyAnimationDelayCounter := 0 }
    else sH
  else if s.isAttackTraining then s
  else if o.happyTrigger then triggerHappyEvent s o.happyCycles
  else walkStep s o.directionChange

/-- One iteration of the `_animation_loop` body (attack-training block,
attack-finished hand-off to happy, happy/attack/walking branch). -/
def animationStep (s : VPetState) (o : RandomDraws) : VPetState :=
  happyOrWalk (happyHandOff (attackPhase s o) o) o

/-! ### DigimonImporter.validate_zip_contents (src/backend/digimon_importer.py)

A readable zip archive is its entry-name list (duplicate entry names are
legal in zips); an unreadable or invalid archive is `none` (the
`BadZipFile` / generic `except` paths).  Error-message strings are kept
short; the claims only depend on the boolean. -/

def requiredSprites : List String :=
  (List.range 12).map (fun i => toString i ++ (".png"))

/-- Python's `f.endswith(suffix)`, on the character lists. -/
def pyEndsWith (f : String) (suffix : String) : Bool :=
  suffix.toList.isSuffixOf f.toList

/-- Python's `f.startswith(pre)`, on the character lists. -/
def pyStartsWith (f : String) (pre : String) : Bool :=
  pre.toList.isPrefixOf f.toList

/-- Python's `c in f` for a single character. -/
def pyContainsChar (f : String) (c : Char) : Bool :=
  f.toList.contains c

/-- The filter in `validate_zip_contents`: keep top-level (`'/' ∉ f`),
non-hidden (no leading dot) `.png` entries. -/
def pngFilter (names : List String) : List String :=
  names.filter (fun f =>
    pyEndsWith f (".png") && !(pyStartsWith f (".")) && !(pyContainsChar f '/'))

def validateZipContents (zip : Option (List String)) : Bool × String :=
  match zip with
  | none => (false, "Invalid zip file")
  | some names =>
    let pngFiles := pngFilter names
    if pngFiles.length ≠ 12 then
      (false, "Expected 12 PNG files, found " ++ toString pngFiles.length)
    else if pngFiles.toFinset ≠ requiredSprites.toFinset then
      (false, "sprite set mismatch")
    else (true, "Valid sprite format")

/-! ### Example states used by witnesses and counterexamples -/

def sessEx : SessionRec :=
  { startTime := 0, endTime := none, durationMinutes := none,
    sessionType := "work", completed := false, vpetName := "Agumon" }

def loggerEx : TimeLogger := { currentSession := some sessEx, sessions := [] }

def workEngineEx : PomodoroEngine :=
  { workDuration := 1500, breakDuration := 300, vpetName := "Agumon",
    isRunning := true, isPaused := false, currentMode := "work",
    timeRemaining := 0, sessionsCompleted := 0, currentSessionStart := some 0,
    timeLogger := loggerEx }

def breakEngineEx : PomodoroEngine :=
  { workDuration := 1500, breakDuration := 300, vpetName := "Agumon",
    isRunning := true, isPaused := false, currentMode := "break",
    timeRemaining := 0, sessionsCompleted := 0, currentSessionStart := some 0,
    timeLogger := { currentSession := none, sessions := [] } }

/-! ### Claim C2: start() on a running engine -/

/-- C2: on every engine whose `is_running` flag is set, `start()` returns
`False` and leaves the whole engine state — every timer field and the
session log — unchanged. -/
theorem start_already_running (e : PomodoroEngine) (now : ℚ)
    (h : e.isRunning = true) : e.start now = (e, false) := by
  simp [PomodoroEngine.start, h]

/-- C2 witness: the work engine example is running, and `start()` on it
returns `False` leaving it unchanged. -/
theorem start_already_running_witness :
    workEngineEx.isRunning = true ∧ workEngineEx.start 0 = (workEngineEx, false) :=
  ⟨rfl, start_already_running workEngineEx 0 rfl⟩

/-! ### Claim C3: reset() forces the idle work state -/

/-- The effects `reset()` is claimed to have, as a predicate on the
pre-state: work mode, full work duration, cleared flags, and any active
log entry closed as interrupted. -/
def resetSpec (e : PomodoroEngine) (now : ℚ) : Prop :=
  (e.reset now).1.currentMode = "work" ∧
  (e.reset now).1.timeRemaining = e.workDuration ∧
  (e.reset now).1.isRunning = false ∧
  (e.reset now).1.isPaused = false ∧
  (∀ cs, e.timeLogger.currentSession = some cs →
    (e.reset now).1.timeLogger.currentSession = none ∧
    (e.reset now).1.timeLogger.sessions =
      e.timeLogger.sessions ++ [closeRec cs now false] ∧
    (closeRec cs now false).completed = false)

/-- C3: for every engine state (running, paused, break mode or idle),
`reset()` yields work mode, full work duration, cleared running/paused
flags, and closes any active work-session log entry with
`completed = False`. -/
theorem reset_forces_idle_work (e : PomodoroEngine) (now : ℚ) : resetSpec e now := by
  unfold resetSpec PomodoroEngine.reset
  cases hcs : e.timeLogger.currentSession with
  | none => simp [TimeLogger.isSessionActive, hcs]
  | some cs =>
    simp [TimeLogger.isSessionActive, hcs, TimeLogger.stopWorkSession, closeRec]

/-- C3 witness: resetting the running work engine with an active session
has the claimed effects. -/
theorem reset_forces_idle_work_witness : resetSpec workEngineEx 0 :=
  reset_forces_idle_work workEngineEx 0

/-! ### Claim C10: reset() preserves count and durations -/

/-- C10: `reset()` never changes `sessions_completed`, `work_duration` or
`break_duration`. -/
theorem reset_preserves_config (e : PomodoroEngine) (now : ℚ) :
    (e.reset now).1.sessionsCompleted = e.sessionsCompleted ∧
    (e.reset now).1.workDuration = e.workDuration ∧
    (e.reset now).1.breakDuration = e.breakDuration := by
  unfold PomodoroEngine.reset
  cases hcs : e.timeLogger.currentSession with
  | none => simp [TimeLogger.isSessionActive, hcs]
  | some cs => simp [TimeLogger.isSessionActive, hcs, TimeLogger.stopWorkSession]

/-! ### Claim C7: skip_session() -/

/-- C7: `skip_session()` toggles the mode and restores the new mode's full
duration on every engine state — regardless of the running flag or the
remaining time, hence without waiting for the countdown — while leaving
`sessions_completed` unchanged and invoking no callback (in particular no
session-complete callback). -/
theorem skipSession_switches_immediately (e : PomodoroEngine) :
    (e.skipSession.1.currentMode = (if e.currentMode = "work" then "break" else "work")) ∧
    (e.skipSession.1.timeRemaining =
      (if e.currentMode = "work" then e.breakDuration else e.workDuration)) ∧
    e.skipSession.1.sessionsCompleted = e.sessionsCompleted ∧
    e.skipSession.1.timeLogger = e.timeLogger ∧
    e.skipSession.2 = [] := by
  unfold PomodoroEngine.skipSession PomodoroEngine.switchMode
  by_cases h : e.currentMode = "work" <;> simp [h]

/-! ### Claim C1: countdown completion -/

/-- The effects of `_handle_session_complete` as a predicate on the
pre-state: work-session log closed as completed (work mode with an active
entry only), session count bumped for work completions only, mode
switched with the new mode's full duration, running flag cleared, and the
session-complete callback delivered strictly before the mode-change
callback. -/
def sessionCompleteSpec (e : PomodoroEngine) (now : ℚ) : Prop :=
  ((e.handleSessionComplete now).1.currentMode =
      (if e.currentMode = "work" then "break" else "work")) ∧
  ((e.handleSessionComplete now).1.timeRemaining =
      (if e.currentMode = "work" then e.breakDuration else e.workDuration)) ∧
  ((e.handleSessionComplete now).1.isRunning = false) ∧
  ((e.handleSessionComplete now).1.isPaused = false) ∧
  ((e.handleSessionComplete now).1.sessionsCompleted =
      (if e.currentMode = "work" then e.sessionsCompleted + 1
       else e.sessionsCompleted)) ∧
  (∀ cs, e.currentMode = "work" → e.timeLogger.currentSession = some cs →
    (e.handleSessionComplete now).1.timeLogger.currentSession = none ∧
    (e.handleSessionComplete now).1.timeLogger.sessions =
      e.timeLogger.sessions ++ [closeRec cs now true] ∧
    (closeRec cs now true).completed = true) ∧
  (¬ e.currentMode = "work" →
    (e.handleSessionComplete now).1.timeLogger = e.timeLogger) ∧
  ((e.handleSessionComplete now).2 =
    [EngineEvent.sessionComplete e.currentMode,
     EngineEvent.modeChange e.currentMode
       (if e.currentMode = "work" then "break" else "work")])

/-- C1 (amended: the completed-session count is incremented only when the
completed mode was work — a completing break session leaves it
unchanged): when the countdown reaches zero while running, the engine
logs session completion (work mode only), increments the count (work mode
only), switches mode restoring the new mode's full duration, clears the
running flag, and delivers the session-complete callback strictly before
the mode-change callback. -/
theorem sessionComplete_effects (e : PomodoroEngine) (now : ℚ)
    (hrun : e.isRunning = true) (hzero : e.timeRemaining ≤ 0) :
    sessionCompleteSpec e now := by
  unfold sessionCompleteSpec PomodoroEngine.handleSessionComplete
    PomodoroEngine.switchMode
  by_cases hw : e.currentMode = "work"
  · cases hcs : e.timeLogger.currentSession with
    | none => simp [hw, hcs, TimeLogger.isSessionActive]
    | some cs =>
      simp [hw, hcs, TimeLogger.isSessionActive, TimeLogger.stopWorkSession, closeRec]
  · simp [hw, TimeLogger.isSessionActive]

/-- C1 witness: the running work engine with an active session and an
expired countdown satisfies the completion spec. -/
theorem sessionComplete_effects_witness :
    workEngineEx.isRunning = true ∧ workEngineEx.timeRemaining ≤ 0 ∧
    sessionCompleteSpec workEngineEx 0 :=
  ⟨rfl, by decide, sessionComplete_effects workEngineEx 0 rfl (by decide)⟩

/-- C1 counterexample: on a running break engine whose countdown reached
zero, `_handle_session_complete` leaves `sessions_completed` at 0 — the
claimed unconditional increment does not happen. -/
theorem sessionComplete_break_no_increment :
    breakEngineEx.isRunning = true ∧ breakEngineEx.timeRemaining ≤ 0 ∧
    breakEngineEx.sessionsCompleted = 0 ∧
    (breakEngineEx.handleSessionComplete 0).1.sessionsCompleted = 0 ∧
    ¬ ((breakEngineEx.handleSessionComplete 0).1.sessionsCompleted =
        breakEngineEx.sessionsCompleted + 1) := by
  refine ⟨rfl, by decide, rfl, ?_, ?_⟩ <;> decide

/-! ### Claim C6: cleanup_on_exit closes the active session -/

/-- Helper: Python's `round(q, 2)` sends non-negative inputs to
non-negative outputs. -/
theorem pyRound2_nonneg (q : ℚ) (h : 0 ≤ q) : 0 ≤ pyRound2 q := by
  have h100 : (0:ℚ) ≤ q * 100 := by positivity
  have hf : (0:ℤ) ≤ ⌊q * 100⌋ := Int.floor_nonneg.mpr h100
  unfold pyRound2 roundHalfEven
  split_ifs <;> refine div_nonneg ?_ (by norm_num)
  · exact_mod_cast hf
  · exact_mod_cast (by omega : (0:ℤ) ≤ ⌊q * 100⌋ + 1)
  · exact_mod_cast hf
  · exact_mod_cast (by omega : (0:ℤ) ≤ ⌊q * 100⌋ + 1)

/-- C6 (amended: the logged duration is non-negative, not strictly
positive — a session interrupted within a fraction of a second rounds to
a duration of 0.0): a work session still active when `cleanup_on_exit`
runs is appended to the log with `completed = False` and a non-negative
`duration_minutes`. -/
theorem cleanupOnExit_interrupted (tl : TimeLogger) (now : ℚ) (cs : SessionRec)
    (hact : tl.currentSession = some cs) (hle : cs.startTime ≤ now) :
    (tl.cleanupOnExit now).sessions = tl.sessions ++ [closeRec cs now false] ∧
    (tl.cleanupOnExit now).currentSession = none ∧
    (closeRec cs now false).completed = false ∧
    (closeRec cs now false).durationMinutes =
      some (pyRound2 ((now - cs.startTime) / 60)) ∧
    0 ≤ pyRound2 ((now - cs.startTime) / 60) := by
  refine ⟨?_, ?_, rfl, rfl,
    pyRound2_nonneg _ (div_nonneg (by linarith) (by norm_num))⟩ <;>
    simp [TimeLogger.cleanupOnExit, TimeLogger.stopWorkSession, hact]

/-- C6 witness: cleaning up the example logger at `now = 1` appends an
interrupted record with a non-negative duration. -/
theorem cleanupOnExit_interrupted_witness :
    loggerEx.currentSession = some sessEx ∧ sessEx.startTime ≤ 1 ∧
    (loggerEx.cleanupOnExit 1).sessions = loggerEx.sessions ++ [closeRec sessEx 1 false] ∧
    (loggerEx.cleanupOnExit 1).currentSession = none ∧
    (closeRec sessEx 1 false).completed = false ∧
    (closeRec sessEx 1 false).durationMinutes =
      some (pyRound2 ((1 - sessEx.startTime) / 60)) ∧
    0 ≤ pyRound2 ((1 - sessEx.startTime) / 60) := by
  have h := cleanupOnExit_interrupted loggerEx 1 sessEx rfl (by norm_num [sessEx])
  exact ⟨rfl, by norm_num [sessEx], h.1, h.2.1, h.2.2.1, h.2.2.2.1, h.2.2.2.2⟩

/-- C6 counterexample: a session started at time 0 and cleaned up 50
milliseconds later is logged with `completed = False` but
`duration_minutes = 0.0`, which is not strictly positive. -/
theorem cleanupOnExit_zero_duration :
    loggerEx.currentSession = some sessEx ∧
    (loggerEx.cleanupOnExit (1/20)).sessions = [closeRec sessEx (1/20) false] ∧
    (closeRec sessEx (1/20) false).completed = false ∧
    (closeRec sessEx (1/20) false).durationMinutes = some 0 ∧
    ¬ (∃ d : ℚ, (closeRec sessEx (1/20) false).durationMinutes = some d ∧ 0 < d) := by
  have h0 : (closeRec sessEx (1/20) false).durationMinutes = some 0 := by
    norm_num [closeRec, sessEx, pyRound2, roundHalfEven]
  refine ⟨rfl, ?_, rfl, h0, ?_⟩
  · simp [TimeLogger.cleanupOnExit, TimeLogger.stopWorkSession, loggerEx]
  · rintro ⟨d, hd, hpos⟩
    rw [h0, Option.some.injEq] at hd
    rw [← hd] at hpos
    exact lt_irrefl _ hpos

/-! ### Claim C5: validate_zip_contents -/

/-- C5 (amended: acceptance requires the *list* of top-level, non-hidden
`.png` entries to have exactly 12 elements whose set is exactly
`{0.png, …, 11.png}` — equivalently, to enumerate the 12 required names
exactly once each; a duplicated entry name makes the archive fail the
count check even though the entry *set* is correct): the validator
returns `(True, message)` precisely in that case, and `(False, message)`
in every other case, including an unreadable or invalid archive, without
raising. -/
theorem validateZipContents_iff (zip : Option (List String)) :
    (validateZipContents zip).1 = true ↔
      ∃ names, zip = some names ∧ (pngFilter names).length = 12 ∧
        (pngFilter names).toFinset = requiredSprites.toFinset := by
  cases zip with
  | none => simp [validateZipContents]
  | some names =>
    simp only [validateZipContents, Option.some.injEq]
    constructor
    · intro h
      refine ⟨names, rfl, ?_⟩
      by_cases h1 : (pngFilter names).length = 12
      · by_cases h2 : (pngFilter names).toFinset = requiredSprites.toFinset
        · exact ⟨h1, h2⟩
        · simp [h1, h2] at h
      · simp [h1] at h
    · rintro ⟨m, hm, h1, h2⟩
      cases hm
      simp [h1, h2]

/-- C5 counterexample: an archive whose entry list repeats `0.png`
(13 top-level `.png` entries, but whose entry *set* is exactly the 12
required names) is rejected, refuting the claimed "if and only if the set
matches" characterisation. -/
theorem validateZip_duplicate_rejected :
    ("0.png" :: requiredSprites).toFinset = requiredSprites.toFinset ∧
    pngFilter ("0.png" :: requiredSprites) = "0.png" :: requiredSprites ∧
    (validateZipContents (some ("0.png" :: requiredSprites))).1 = false := by
  refine ⟨by decide, by decide, by decide⟩

/-! ### Claim C4: event queueing (spec-modelled dispatch) -/

/-- C4: queuing an event while another is active only records it as
queued — the active event keeps running untouched; on a later tick in
which the active event finishes, the completion hook's chained event (if
any) activates first, and the queued event activates exactly when the
hook returns no chained name; while the active event is unfinished
nothing changes hands. -/
theorem queueEvent_defers (e : EventEngine) (n a : String) (cfg : PetEventCfg)
    (ha : e.activeName = some a) (hcfg : lookupEvent e.registry a = some cfg) :
    ((e.queueEvent n).activeName = some a ∧
     (e.queueEvent n).activeState = e.activeState ∧
     (e.queueEvent n).queuedName = some n) ∧
    ((cfg.update e.activeState).2.2 = false →
      e.tick.activeName = some a ∧ e.tick.queuedName = e.queuedName) ∧
    (∀ ch cfgc, (cfg.update e.activeState).2.2 = true →
      cfg.completionResult = some ch →
      lookupEvent e.registry ch = some cfgc →
      e.tick.activeName = some ch ∧ e.tick.queuedName = e.queuedName ∧
      e.tick.activeState = cfgc.startState) ∧
    (∀ q cfgq, (cfg.update e.activeState).2.2 = true →
      cfg.completionResult = none → e.queuedName = some q →
      lookupEvent e.registry q = some cfgq →
      e.tick.activeName = some q ∧ e.tick.queuedName = none ∧
      e.tick.activeState = cfgq.startState) := by
  refine ⟨?_, ?_, ?_, ?_⟩
  · simp [EventEngine.queueEvent, ha]
  · intro hfin
    simp [EventEngine.tick, ha, hcfg, hfin]
  · intro ch cfgc hfin hchain hlook
    simp [EventEngine.tick, ha, hcfg, hfin, hchain, EventEngine.activate, hlook]
  · intro q cfgq hfin hchain hq hlook
    simp [EventEngine.tick, ha, hcfg, hfin, hchain, hq, EventEngine.activate, hlook]

/-- Example event registry for the C4 witness: an attack event chaining
into happy, plus a happy event with no hook. -/
def happyCfgEx : PetEventCfg :=
  { name := "happy", frames := [7, 3], modes := ["work", "break", "idle"],
    frameDelay := 2, cycles := 1, onComplete := none }

def attackCfgEx : PetEventCfg :=
  { name := "attack", frames := [6, 11], modes := ["work"],
    frameDelay := 3, cycles := 1, onComplete := some (some "happy") }

def engineEx : EventEngine :=
  { registry := [("happy", happyCfgEx), ("attack", attackCfgEx)],
    activeName := some "happy",
    activeState := happyCfgEx.startState,
    queuedName := none }

/-- C4 witness: on the example engine with the happy event active,
queueing and ticking behave as claimed. -/
theorem queueEvent_defers_witness :
    engineEx.activeName = some "happy" ∧
    lookupEvent engineEx.registry "happy" = some happyCfgEx ∧
    (((engineEx.queueEvent "attack").activeName = some "happy" ∧
      (engineEx.queueEvent "attack").activeState = engineEx.activeState ∧
      (engineEx.queueEvent "attack").queuedName = some "attack") ∧
     ((happyCfgEx.update engineEx.activeState).2.2 = false →
       engineEx.tick.activeName = some "happy" ∧
       engineEx.tick.queuedName = engineEx.queuedName) ∧
     (∀ ch cfgc, (happyCfgEx.update engineEx.activeState).2.2 = true →
       happyCfgEx.completionResult = some ch →
       lookupEvent engineEx.registry ch = some cfgc →
       engineEx.tick.activeName = some ch ∧
       engineEx.tick.queuedName = engineEx.queuedName ∧
       engineEx.tick.activeState = cfgc.startState) ∧
     (∀ q cfgq, (happyCfgEx.update engineEx.activeState).2.2 = true →
       happyCfgEx.completionResult = none → engineEx.queuedName = some q →
       lookupEvent engineEx.registry q = some cfgq →
       engineEx.tick.activeName = some q ∧ engineEx.tick.queuedName = none ∧
       engineEx.tick.activeState = cfgq.startState)) :=
  ⟨rfl, by decide, queueEvent_defers engineEx "attack" "happy" happyCfgEx rfl (by decide)⟩

/-! ### Claim C8: baseline walking -/

/-- The claimed behaviour of one baseline walking step, as a predicate on
the pre-state and the random draws: the position moves by exactly the
mode-dependent speed in the walking direction; a new position at or past
a boundary clamps there with the direction set away from that boundary;
otherwise a random reversal is possible exactly when the accumulated
walked distance has reached the minimum walk distance. -/
def baselineWalkSpec (s : VPetState) (o : RandomDraws) : Prop :=
  (s.xPosition + s.direction * (if s.currentMode = "work" then 3 else 1) ≥
      s.canvasWidth - s.spriteWidth - s.margin →
    (animationStep s o).xPosition = s.canvasWidth - s.spriteWidth - s.margin ∧
    (animationStep s o).direction = -1 ∧
    (animationStep s o).distanceWalked = 0) ∧
  (s.xPosition + s.direction * (if s.currentMode = "work" then 3 else 1) <
      s.canvasWidth - s.spriteWidth - s.margin →
   s.xPosition + s.direction * (if s.currentMode = "work" then 3 else 1) ≤ s.margin →
    (animationStep s o).xPosition = s.margin ∧
    (animationStep s o).direction = 1 ∧
    (animationStep s o).distanceWalked = 0) ∧
  (s.xPosition + s.direction * (if s.currentMode = "work" then 3 else 1) <
      s.canvasWidth - s.spriteWidth - s.margin →
   s.margin < s.xPosition + s.direction * (if s.currentMode = "work" then 3 else 1) →
    (animationStep s o).xPosition =
      s.xPosition + s.direction * (if s.currentMode = "work" then 3 else 1) ∧
    (s.distanceWalked + (if s.currentMode = "work" then 3 else 1) ≥
        s.minimumWalkDistance ∧ o.directionChange = true →
      (animationStep s o).direction = -s.direction ∧
      (animationStep s o).distanceWalked = 0) ∧
    (¬ (s.distanceWalked + (if s.currentMode = "work" then 3 else 1) ≥
        s.minimumWalkDistance ∧ o.directionChange = true) →
      (animationStep s o).direction = s.direction ∧
      (animationStep s o).distanceWalked =
        s.distanceWalked + (if s.currentMode = "work" then 3 else 1)))

/-- In a baseline situation (no event active or triggering), the loop
body reduces to the walking block. -/
theorem animationStep_eq_walkStep (s : VPetState) (o : RandomDraws)
    (hHappy : s.isInHappyEvent = false) (hAtk : s.isAttackTraining = false)
    (hJust : s.attackJustFinished = false) (hDrawA : o.attackTrigger = false)
    (hDrawH : o.happyTrigger = false) :
    animationStep s o = walkStep s o.directionChange := by
  have h1 : attackPhase s o = s := by
    unfold attackPhase
    simp [hAtk, hJust, hDrawA]
  have h2 : happyHandOff s o = s := by
    unfold happyHandOff
    simp [hJust]
  unfold animationStep
  rw [h1, h2]
  unfold happyOrWalk
  simp [hHappy, hAtk, hDrawH]

/-- Case characterisation of one walking step: clamp right, clamp left,
random reversal, or plain advance. -/
theorem walkStep_char (s : VPetState) (dirDraw : Bool) :
    walkStep s dirDraw =
      (if s.xPosition + s.direction * (getAnimationParameters s).1 ≥
          s.canvasWidth - s.spriteWidth - s.margin then
        { s with xPosition := s.canvasWidth - s.spriteWidth - s.margin,
                 direction := -1, distanceWalked := 0,
                 currentFrame := 1 - s.currentFrame }
      else if s.xPosition + s.direction * (getAnimationParameters s).1 ≤ s.margin then
        { s with xPosition := s.margin, direction := 1, distanceWalked := 0,
                 currentFrame := 1 - s.currentFrame }
      else if s.distanceWalked + |s.direction * (getAnimationParameters s).1| ≥
          s.minimumWalkDistance ∧ dirDraw = true then
        { s with xPosition := s.xPosition + s.direction * (getAnimationParameters s).1,
                 direction := -s.direction, distanceWalked := 0,
                 currentFrame := 1 - s.currentFrame }
      else
        { s with xPosition := s.xPosition + s.direction * (getAnimationParameters s).1,
                 distanceWalked :=
                   s.distanceWalked + |s.direction * (getAnimationParameters s).1|,
                 currentFrame := 1 - s.currentFrame }) := by
  unfold walkStep checkBoundaries shouldChangeDirection
  dsimp only
  simp only [add_sub_cancel_left]
  split_ifs <;> first | rfl | omega | simp_all

/-- C8 (amended: on reaching or passing a boundary the direction is *set
to point away from that boundary* — +1 at the left edge, −1 at the right
edge — which coincides with a reversal except when the pet was already
heading away from outside the walkable band, as happens from the initial
position 10 with margin 12): in a baseline walking step (no happy or
attack event active or triggering), the position advances by the
mode-dependent speed (3 in work mode, 1 otherwise) in the current
direction, is clamped to the reached boundary with the direction set
inward, and a random direction reversal is considered only once the
distance walked reaches the minimum walk distance. -/
theorem animationStep_baseline (s : VPetState) (o : RandomDraws)
    (hHappy : s.isInHappyEvent = false) (hAtk : s.isAttackTraining = false)
    (hJust : s.attackJustFinished = false) (hDrawA : o.attackTrigger = false)
    (hDrawH : o.happyTrigger = false)
    (hdir : s.direction = 1 ∨ s.direction = -1) :
    baselineWalkSpec s o := by
  have hsp : (getAnimationParameters s).1 =
      (if s.currentMode = "work" then (3:ℤ) else 1) := by
    unfold getAnimationParameters
    rw [apply_ite Prod.fst]
  have habs : |s.direction * (if s.currentMode = "work" then (3:ℤ) else 1)| =
      (if s.currentMode = "work" then (3:ℤ) else 1) := by
    rcases hdir with hd | hd <;> rw [hd] <;> split_ifs <;> norm_num
  unfold baselineWalkSpec
  rw [animationStep_eq_walkStep s o hHappy hAtk hJust hDrawA hDrawH,
    walkStep_char, hsp, habs]
  refine ⟨?_, ?_, ?_⟩
  · intro h1
    rw [if_pos h1]
    exact ⟨rfl, rfl, rfl⟩
  · intro h1 h2
    rw [if_neg (not_le.mpr h1), if_pos h2]
    exact ⟨rfl, rfl, rfl⟩
  · intro h1 h2
    rw [if_neg (not_le.mpr h1), if_neg (not_le.mpr h2)]
    refine ⟨?_, ?_, ?_⟩
    · split_ifs <;> rfl
    · intro h3
      rw [if_pos h3]
      exact ⟨rfl, rfl⟩
    · intro h3
      rw [if_neg h3]
      exact ⟨rfl, rfl⟩

/-- The engine's initial animation state (`VPetEngine.__init__`):
`x_position = 10`, direction right, default canvas geometry. -/
def vpetInit : VPetState :=
  { xPosition := 10, direction := 1, currentFrame := 0, canvasWidth := 230,
    canvasHeight := 60, spriteWidth := 48, margin := 12,
    isInHappyEvent := false, happyCyclesRemaining := 0, happyFrameCounter := 0,
    happyAnimationDelayCounter := 0, happyAnimationDelayThreshold := 2,
    isAttackTraining := false, attackFramesRemaining := 0, attackFrameCounter := 0,
    attackAnimationDelayCounter := 0, attackAnimationDelayThreshold := 3,
    attackJustFinished := false, distanceWalked := 0, minimumWalkDistance := 25,
    currentMode := "break", animationRunning := true, isTimerRunning := false }

/-- Random draws in which no event triggers and no random reversal fires. -/
def noDraws : RandomDraws :=
  { attackTrigger := false, attackLength := 5, happyTrigger := false,
    happyCycles := 1, directionChange := false }

/-- A mid-canvas work-mode state for the C8 witness. -/
def vpetMid : VPetState := { vpetInit with currentMode := "work", xPosition := 100 }

/-- C8 witness: a work-mode step from the canvas interior follows the
baseline-walk spec. -/
theorem animationStep_baseline_witness :
    vpetMid.isInHappyEvent = false ∧ vpetMid.isAttackTraining = false ∧
    vpetMid.attackJustFinished = false ∧ noDraws.attackTrigger = false ∧
    noDraws.happyTrigger = false ∧ vpetMid.direction = 1 ∧
    baselineWalkSpec vpetMid noDraws :=
  ⟨rfl, rfl, rfl, rfl, rfl, rfl,
   animationStep_baseline vpetMid noDraws rfl rfl rfl rfl rfl (Or.inl rfl)⟩

/-- C8 counterexample: in break mode from the engine's initial state
(`x = 10`, direction right, margin 12, speed 1), the new position 11
reaches the left boundary 12, the position is clamped up to 12, but the
direction is *not* reversed — it stays 1 — contradicting the claim that
reaching a boundary reverses the direction. -/
theorem animationStep_boundary_not_reversed :
    vpetInit.currentMode = "break" ∧ vpetInit.direction = 1 ∧
    vpetInit.xPosition + vpetInit.direction *
        (if vpetInit.currentMode = "work" then 3 else 1) ≤ vpetInit.margin ∧
    (animationStep vpetInit noDraws).xPosition = vpetInit.margin ∧
    (animationStep vpetInit noDraws).direction = 1 ∧
    ¬ ((animationStep vpetInit noDraws).direction = -vpetInit.direction) := by
  have hne : ("break" : String) ≠ "work" := by decide
  have hw : animationStep vpetInit noDraws = walkStep vpetInit false := by
    have h := animationStep_eq_walkStep vpetInit noDraws rfl rfl rfl rfl rfl
    simpa [noDraws] using h
  refine ⟨rfl, rfl, by decide, ?_, ?_, ?_⟩ <;>
    rw [hw, walkStep_char] <;>
    norm_num [vpetInit, getAnimationParameters, hne]

/-! ### Claim C9: PetEvent.update finishes after cycles * frames * delay calls -/

/-- Abbreviation for an active event state with the given counters. -/
def evState (i r : ℕ) (rem : ℤ) : PetEventState :=
  { active := true, currentFrameIndex := i, frameDelayCounter := r,
    cyclesRemaining := rem }

/-- A call with the delay counter still below the threshold only bumps
the counter. -/
theorem updSt_ctr (cfg : PetEventCfg) (i r : ℕ) (rem : ℤ)
    (hr : r + 1 < cfg.frameDelay) :
    cfg.updSt (evState i r rem) = evState i (r + 1) rem := by
  unfold PetEventCfg.updSt PetEventCfg.update evState
  dsimp only
  rw [if_neg (by omega)]

/-- Iterating `update` while the delay counter stays below the threshold. -/
theorem iterate_ctr (cfg : PetEventCfg) (i : ℕ) (rem : ℤ) :
    ∀ r, r < cfg.frameDelay →
      (cfg.updSt)^[r] (evState i 0 rem) = evState i r rem := by
  intro r
  induction r with
  | zero => intro _; rfl
  | succ r ih =>
    intro h
    rw [Function.iterate_succ_apply', ih (by omega)]
    exact updSt_ctr cfg i r rem h

/-- One whole frame delay advances the frame cursor by one (away from the
end of the frame list). -/
theorem iterate_fullDelay (cfg : PetEventCfg) (i : ℕ) (rem : ℤ)
    (hd : 0 < cfg.frameDelay) (hi : i + 1 < cfg.frames.length) :
    (cfg.updSt)^[cfg.frameDelay] (evState i 0 rem) = evState (i + 1) 0 rem := by
  obtain ⟨d', hd'⟩ : ∃ d', cfg.frameDelay = d' + 1 := ⟨cfg.frameDelay - 1, by omega⟩
  rw [hd', Function.iterate_succ_apply',
    show d' = cfg.frameDelay - 1 from by omega,
    iterate_ctr cfg i rem (cfg.frameDelay - 1) (by omega)]
  unfold PetEventCfg.updSt PetEventCfg.update evState
  dsimp only
  rw [if_pos (by omega), if_neg (by omega)]

/-- Walking through the first `i` frames of a cycle. -/
theorem iterate_frameBlock (cfg : PetEventCfg) (rem : ℤ)
    (hd : 0 < cfg.frameDelay) :
    ∀ i, i < cfg.frames.length →
      (cfg.updSt)^[i * cfg.frameDelay] (evState 0 0 rem) = evState i 0 rem := by
  intro i
  induction i with
  | zero => intro _; simp
  | succ i ih =>
    intro h
    rw [Nat.succ_mul, Nat.add_comm, Function.iterate_add_apply, ih (by omega)]
    exact iterate_fullDelay cfg i rem hd h

/-- One full cycle (frames * delay calls) decrements the remaining cycle
count when more than one cycle remains. -/
theorem iterate_cycleBlock (cfg : PetEventCfg) (rem : ℤ)
    (hd : 0 < cfg.frameDelay) (hn : 0 < cfg.frames.length) (hrem : 1 < rem) :
    (cfg.updSt)^[cfg.frames.length * cfg.frameDelay] (evState 0 0 rem) =
      evState 0 0 (rem - 1) := by
  obtain ⟨n', hn'⟩ : ∃ n', cfg.frames.length = n' + 1 :=
    ⟨cfg.frames.length - 1, by omega⟩
  obtain ⟨d', hd'⟩ : ∃ d', cfg.frameDelay = d' + 1 := ⟨cfg.frameDelay - 1, by omega⟩
  have hsplit : cfg.frames.length * cfg.frameDelay =
      1 + (d' + n' * cfg.frameDelay) := by
    have h1 : cfg.frames.length * cfg.frameDelay =
        1 + (d' + n' * cfg.frameDelay) + (0 : ℕ) := by
      rw [hn', hd']; ring
    omega
  rw [hsplit, Function.iterate_add_apply, Function.iterate_add_apply,
    iterate_frameBlock cfg rem hd n' (by omega),
    iterate_ctr cfg n' rem d' (by omega), Function.iterate_one]
  unfold PetEventCfg.updSt PetEventCfg.update evState
  dsimp only
  rw [if_pos (by omega), if_pos (by omega), if_neg (by omega)]

/-- After `j` full cycles the event is back at the first frame with
`cycles - j` cycles remaining. -/
theorem iterate_cycles (cfg : PetEventCfg)
    (hd : 0 < cfg.frameDelay) (hn : 0 < cfg.frames.length) :
    ∀ j, j < cfg.cycles →
      (cfg.updSt)^[j * (cfg.frames.length * cfg.frameDelay)] cfg.startState =
        evState 0 0 ((cfg.cycles : ℤ) - j) := by
  intro j
  induction j with
  | zero => intro _; simp [PetEventCfg.startState, evState]
  | succ j ih =>
    intro h
    rw [Nat.succ_mul, Nat.add_comm, Function.iterate_add_apply, ih (by omega),
      iterate_cycleBlock cfg ((cfg.cycles : ℤ) - j) hd hn (by omega)]
    have hcast : ((cfg.cycles : ℤ) - j) - 1 = (cfg.cycles : ℤ) - (j + 1 : ℕ) := by
      push_cast; ring
    rw [hcast]

/-- The state reached after `r + (i*delay + p*(frames*delay))` calls that
stay within the run. -/
theorem runUpd_general (cfg : PetEventCfg)
    (hd : 0 < cfg.frameDelay) (hn : 0 < cfg.frames.length) (p i r : ℕ)
    (hp : p < cfg.cycles) (hi : i < cfg.frames.length) (hr : r < cfg.frameDelay) :
    (cfg.updSt)^[r + (i * cfg.frameDelay +
        p * (cfg.frames.length * cfg.frameDelay))] cfg.startState =
      evState i r ((cfg.cycles : ℤ) - p) := by
  rw [Function.iterate_add_apply, Function.iterate_add_apply,
    iterate_cycles cfg hd hn p hp, iterate_frameBlock cfg _ hd i hi,
    iterate_ctr cfg i _ r hr]

/-- The state just before the last call: last frame, delay counter one
short of the threshold, one cycle remaining. -/
theorem runUpd_last (cfg : PetEventCfg) (hn : 0 < cfg.frames.length)
    (hd : 0 < cfg.frameDelay) (hc : 0 < cfg.cycles) :
    (cfg.updSt)^[cfg.cycles * cfg.frames.length * cfg.frameDelay - 1]
        cfg.startState =
      evState (cfg.frames.length - 1) (cfg.frameDelay - 1) 1 := by
  obtain ⟨c', hc'⟩ : ∃ c', cfg.cycles = c' + 1 := ⟨cfg.cycles - 1, by omega⟩
  obtain ⟨n', hn'⟩ : ∃ n', cfg.frames.length = n' + 1 :=
    ⟨cfg.frames.length - 1, by omega⟩
  obtain ⟨d', hd'⟩ : ∃ d', cfg.frameDelay = d' + 1 := ⟨cfg.frameDelay - 1, by omega⟩
  have hsplit : cfg.cycles * cfg.frames.length * cfg.frameDelay - 1 =
      d' + (n' * cfg.frameDelay +
        c' * (cfg.frames.length * cfg.frameDelay)) := by
    have h1 : cfg.cycles * cfg.frames.length * cfg.frameDelay =
        d' + (n' * cfg.frameDelay +
          c' * (cfg.frames.length * cfg.frameDelay)) + 1 := by
      rw [hc', hn', hd']; ring
    omega
  rw [hsplit, runUpd_general cfg hd hn c' n' d' (by omega) (by omega) (by omega)]
  have hrem : (cfg.cycles : ℤ) - c' = 1 := by rw [hc']; push_cast; ring
  unfold evState
  simp only [PetEventState.mk.injEq, true_and]
  exact ⟨by omega, by omega, hrem⟩

/-- The claimed run/finish behaviour of a started event, as a predicate on
its configuration: `update` reports `finished = False` on each of the
first `cycles*frames*delay − 1` calls, reports `finished = True` on call
number `cycles*frames*delay`, and leaves the event inactive there. -/
def petEventFinishSpec (cfg : PetEventCfg) : Prop :=
  (∀ j : ℕ, j + 1 < cfg.cycles * cfg.frames.length * cfg.frameDelay →
    (cfg.update ((cfg.updSt)^[j] cfg.startState)).2.2 = false) ∧
  (cfg.update ((cfg.updSt)^[cfg.cycles * cfg.frames.length * cfg.frameDelay - 1]
      cfg.startState)).2.2 = true ∧
  (cfg.update ((cfg.updSt)^[cfg.cycles * cfg.frames.length * cfg.frameDelay - 1]
      cfg.startState)).1.active = false

/-- C9: for every event with a non-empty frame list, a positive frame
delay and a positive cycle count, after `start()` the `update()` calls
return `finished = False` exactly `cycles*frames*delay − 1` times, then
`finished = True` on the `cycles*frames*delay`-th call, at which point
the event's active flag is cleared. -/
theorem petEvent_update_finishes (cfg : PetEventCfg)
    (hn : 0 < cfg.frames.length) (hd : 0 < cfg.frameDelay)
    (hc : 0 < cfg.cycles) : petEventFinishSpec cfg := by
  refine ⟨?_, ?_, ?_⟩
  · intro j hj
    obtain ⟨p, j2, hpj, hj2lt⟩ : ∃ p j2,
        j = cfg.frames.length * cfg.frameDelay * p + j2 ∧
          j2 < cfg.frames.length * cfg.frameDelay :=
      ⟨j / (cfg.frames.length * cfg.frameDelay),
       j % (cfg.frames.length * cfg.frameDelay),
       (Nat.div_add_mod j (cfg.frames.length * cfg.frameDelay)).symm,
       Nat.mod_lt _ (Nat.mul_pos hn hd)⟩
    obtain ⟨i, r, hir, hrlt⟩ : ∃ i r, j2 = cfg.frameDelay * i + r ∧
        r < cfg.frameDelay :=
      ⟨j2 / cfg.frameDelay, j2 % cfg.frameDelay,
       (Nat.div_add_mod j2 cfg.frameDelay).symm, Nat.mod_lt _ hd⟩
    have hi : i < cfg.frames.length := by
      have h3 : cfg.frameDelay * i < cfg.frameDelay * cfg.frames.length := by
        have h4 := hj2lt
        rw [mul_comm cfg.frames.length cfg.frameDelay] at h4
        omega
      exact Nat.lt_of_mul_lt_mul_left h3
    have hp : p < cfg.cycles := by
      have h5 : cfg.frames.length * cfg.frameDelay * p <
          cfg.frames.length * cfg.frameDelay * cfg.cycles := by
        have h6 : cfg.cycles * cfg.frames.length * cfg.frameDelay =
            cfg.frames.length * cfg.frameDelay * cfg.cycles := by ring
        omega
      exact Nat.lt_of_mul_lt_mul_left h5
    have hexp : j = r + (i * cfg.frameDelay +
        p * (cfg.frames.length * cfg.frameDelay)) := by
      have hm1 : cfg.frames.length * cfg.frameDelay * p =
          p * (cfg.frames.length * cfg.frameDelay) := by ring
      have hm2 : cfg.frameDelay * i = i * cfg.frameDelay := by ring
      omega
    rw [hexp, runUpd_general cfg hd hn p i r hp hi hrlt]
    unfold PetEventCfg.update evState
    dsimp only
    split_ifs with h7 h8 h9
    · exfalso
      have hr1 : cfg.frameDelay = r + 1 := by omega
      have hi1 : cfg.frames.length = i + 1 := by omega
      have hp1 : cfg.cycles = p + 1 := by omega
      have hkey : j + 1 = cfg.cycles * cfg.frames.length * cfg.frameDelay := by
        rw [hexp, hp1, hi1, hr1]; ring
      omega
    · rfl
    · rfl
    · rfl
  · rw [runUpd_last cfg hn hd hc]
    unfold PetEventCfg.update evState
    dsimp only
    rw [if_pos (by omega), if_pos (by omega), if_pos (by omega)]
  · rw [runUpd_last cfg hn hd hc]
    unfold PetEventCfg.update evState
    dsimp only
    rw [if_pos (by omega), if_pos (by omega), if_pos (by omega)]

/-- C9 witness: the happy event (2 frames, delay 2, 1 cycle) finishes
exactly on its 4th update call. -/
theorem petEvent_update_finishes_witness :
    0 < happyCfgEx.frames.length ∧ 0 < happyCfgEx.frameDelay ∧
    0 < happyCfgEx.cycles ∧ petEventFinishSpec happyCfgEx :=
  ⟨by decide, by decide, by decide,
   petEvent_update_finishes happyCfgEx (by decide) (by decide) (by decide)⟩
end PomodoroVPet
